import Mathlib

/-!
Shallow embedding of the Jblocker traffic-monitoring core
(`backend/monitoring/traffic_monitor.py`, `backend/ml/gambling_detector.py`,
`backend/core/database_manager.py`) and proofs of its specification claims.

Probabilities and thresholds are modelled as rationals (`ℚ`), timestamps as
whole seconds (`ℕ`/`ℤ`), the in-memory blocked-domain set as a `List String`
with Python-set insert/discard semantics, and fallible external calls (the ML
scorer) as `String → Except Unit _` so that a raised exception is an explicit
value.
-/

namespace Jblocker

/-! ### Classifier: `GamblingDetector.predict_gambling` -/

/-- Threshold derived from the stored `sensitivity` setting (a string-encoded
integer on the 0–100 scale): `float(sensitivity_setting) / 100.0` when a value
is present, `0.5` when the setting is absent (or the db manager is unset).
Embeds lines 176–180 of `gambling_detector.py`. -/
def sensitivityThreshold : Option ℤ → ℚ
  | none => mkRat 1 2
  | some s => mkRat s 100

/-- `GamblingDetector.predict_gambling` (`gambling_detector.py` 160–188).
`model` is `None` or a scorer mapping the extracted feature text of a URL to
the gambling-class probability (`predict_proba`), which may raise
(`Except.error`).  Model not loaded returns `(0.5, False)`; any exception in
the `try` block returns `(0.5, False)`; otherwise the verdict is
`gambling_prob > sensitivity`. -/
def predict_gambling (model : Option (String → Except Unit ℚ))
    (sensitivitySetting : Option ℤ) (url : String) : ℚ × Bool :=
  match model with
  | none => (mkRat 1 2, false)
  | some score =>
    match score url with
    | .error _ => (mkRat 1 2, false)
    | .ok gambling_prob =>
      (gambling_prob, decide (gambling_prob > sensitivityThreshold sensitivitySetting))

/-! ### `urlparse(url).netloc` -/

/-- Drop everything up to and including the first `//` of the URL; `none` when
the URL has no `//` (mirroring `urlparse`, whose netloc is empty then). -/
def afterDoubleSlash : List Char → Option (List Char)
  | [] => none
  | '/' :: '/' :: rest => some rest
  | _ :: rest => afterDoubleSlash rest

/-- The network-location component runs until the first `/`, `?` or `#`. -/
def takeUntilDelim : List Char → List Char
  | [] => []
  | c :: rest => if c = '/' ∨ c = '?' ∨ c = '#' then [] else c :: takeUntilDelim rest

/-- `urlparse(url).netloc` for the URL shapes this program builds
(`scheme://host[/path...]`). -/
def netloc (url : String) : String :=
  match afterDoubleSlash url.toList with
  | none => ""
  | some rest => String.mk (takeUntilDelim rest)

/-! ### Blocklist store: `NetworkTrafficMonitor` state and block/unblock -/

/-- Python's `set.add`: insert unless already present. -/
def setInsert (s : List String) (d : String) : List String :=
  if d ∈ s then s else s ++ [d]

/-- `DatabaseManager.add_blocked_site`: `INSERT OR IGNORE` against the
`blocked_sites` table whose `url` column is `UNIQUE` — an idempotent insert. -/
def dbAddBlockedSite (persisted : List String) (url : String) : List String :=
  if url ∈ persisted then persisted else persisted ++ [url]

/-- Substring test: `domain in line` for Python strings. -/
def strContains (line dom : String) : Bool :=
  (List.range (line.length + 1)).any
    (fun i => decide ((line.toList.drop i).take dom.length = dom.toList))

/-- The mutable state touched by `NetworkTrafficMonitor.block_domain` /
`unblock_domain`: the in-memory `blocked_domains` set, the persisted
`blocked_sites` urls, the hosts-file lines, and whether the hosts file is
writable (a `PermissionError` is raised on write when it is not). -/
structure MonitorState where
  blockedDomains : List String
  persisted : List String
  hostsLines : List String
  hostsWritable : Bool
deriving DecidableEq

/-- `NetworkTrafficMonitor.block_domain` (`traffic_monitor.py` 189–210):
adds `http://domain` to the database, adds `domain` to the in-memory set, then
appends loopback redirect lines for `domain` and `www.domain` to the hosts
file; a `PermissionError` there is caught and only printed.  Returns
`(new state, return value, permission message printed)`. -/
def block_domain (st : MonitorState) (domain : String) :
    MonitorState × Bool × Bool :=
  let persisted := dbAddBlockedSite st.persisted ("http://" ++ domain)
  let mem := setInsert st.blockedDomains domain
  if st.hostsWritable then
    (⟨mem, persisted,
      st.hostsLines ++ ["127.0.0.1 " ++ domain, "127.0.0.1 www." ++ domain],
      st.hostsWritable⟩, true, false)
  else
    (⟨mem, persisted, st.hostsLines, st.hostsWritable⟩, true, true)

/-- `NetworkTrafficMonitor.unblock_domain` (`traffic_monitor.py` 212–237):
deletes `http://domain` from the database, discards `domain` from the
in-memory set, and rewrites the hosts file keeping every line not containing
`domain` as a substring; a `PermissionError` is caught and only printed. -/
def unblock_domain (st : MonitorState) (domain : String) :
    MonitorState × Bool × Bool :=
  let persisted := st.persisted.filter (fun u => u != "http://" ++ domain)
  let mem := st.blockedDomains.filter (fun d => d != domain)
  if st.hostsWritable then
    (⟨mem, persisted, st.hostsLines.filter (fun l => !(strContains l domain)),
      st.hostsWritable⟩, true, false)
  else
    (⟨mem, persisted, st.hostsLines, st.hostsWritable⟩, true, true)

/-- `NetworkTrafficMonitor.load_blocked_sites` (`traffic_monitor.py` 35–38):
`{urlparse(site.url).netloc for site in blocked_sites}` — a set comprehension
over the persisted urls, with no further normalization. -/
def load_blocked_sites (persistedUrls : List String) : List String :=
  (persistedUrls.map netloc).dedup

/-! ### Dedup cache of the connection poller -/

/-- `timedelta.seconds` of a non-negative timedelta of `elapsed` whole
seconds: the seconds component after full days are removed (`datetime`
normalizes `days`/`seconds`/`microseconds`, with `0 ≤ seconds < 86400`). -/
def timedeltaSeconds (elapsed : ℕ) : ℕ := elapsed % 86400

/-- The guard at `traffic_monitor.py` 129–134: a connection is skipped when
its cache key is present and `(datetime.now() - last_check).seconds < 300`. -/
def dedupSuppresses (lastCheck : Option ℕ) (now : ℕ) : Bool :=
  match lastCheck with
  | none => false
  | some t => decide (timedeltaSeconds (now - t) < 300)

/-- `self.connections_cache[cache_key]` lookup (dict as association list). -/
def cacheLookup (cache : List (String × ℕ)) (key : String) : Option ℕ :=
  match cache.find? (fun kv => kv.1 == key) with
  | none => none
  | some kv => some kv.2

/-- `self.connections_cache[cache_key] = datetime.now()` (dict assignment). -/
def cacheUpdate (cache : List (String × ℕ)) (key : String) (t : ℕ) :
    List (String × ℕ) :=
  if (cache.find? (fun kv => kv.1 == key)).isSome then
    cache.map (fun kv => if kv.1 == key then (key, t) else kv)
  else
    cache ++ [(key, t)]

/-! ### Decision engine: `_analyze_connection` and the proxy addon -/

/-- A row of `detection_logs` as written by `log_detection`. -/
structure DetectionRecord where
  url : String
  confidence : ℚ
  is_gambling : Bool
  blocked : Bool
deriving DecidableEq

/-- The `ml_predictor` call pattern of `_analyze_connection` (lines 138–146):
defaults `(0.5, False)`, overwritten by the predictor when it is set and does
not raise (`try`/`except: pass`). -/
def mlPredictOrFallback (pred : Option (String → Except Unit (ℚ × Bool)))
    (url : String) : ℚ × Bool :=
  match pred with
  | none => (mkRat 1 2, false)
  | some p =>
    match p url with
    | .error _ => (mkRat 1 2, false)
    | .ok r => r

/-- The observable outcome of one `_analyze_connection` call: the dedup cache
afterwards, the detection row logged (if any), whether `block_domain` was
invoked, and the monitor state afterwards. -/
structure AnalyzeResult where
  cache : List (String × ℕ)
  detection : Option DetectionRecord
  blockInvoked : Bool
  state : MonitorState
deriving DecidableEq

/-- `NetworkTrafficMonitor._analyze_connection` (`traffic_monitor.py`
113–163) from the point where the remote endpoint has been resolved to
`hostname` (the loopback/private skip and reverse DNS happen upstream):
dedup-cache check with key `hostname:port`, predictor call with `(0.5, False)`
fallback, `log_detection` with `blocked = hostname in self.blocked_domains`,
then auto-block via `block_domain` when `is_gambling and confidence > 0.7 and
hostname not in self.blocked_domains`. -/
def analyzeConnection (st : MonitorState) (cache : List (String × ℕ))
    (now : ℕ) (pred : Option (String → Except Unit (ℚ × Bool)))
    (hostname : String) (port : ℕ) : AnalyzeResult :=
  let url := "http://" ++ hostname
  let key := hostname ++ ":" ++ toString port
  if dedupSuppresses (cacheLookup cache key) now then
    ⟨cache, none, false, st⟩
  else
    let cache' := cacheUpdate cache key now
    let r := mlPredictOrFallback pred url
    let confidence := r.1
    let is_gambling := r.2
    let det : DetectionRecord :=
      ⟨url, confidence, is_gambling, decide (hostname ∈ st.blockedDomains)⟩
    if is_gambling && decide (confidence > mkRat 7 10)
        && !(decide (hostname ∈ st.blockedDomains)) then
      ⟨cache', some det, true, (block_domain st hostname).1⟩
    else
      ⟨cache', some det, false, st⟩

/-- The fixed blocked-page body served by `ProxyAddon.request`. -/
def blockedPageBody : String :=
  "<html><body><h1>Site Blocked</h1><p>This site has been blocked by NetGuard.</p></body></html>"

/-- The per-flow request context stored as `flow.request_info` (headers and
body are carried through unchanged and play no role in the claims). -/
structure RequestInfo where
  url : String
  method : String
deriving DecidableEq

/-- Outcome of `ProxyAddon.request`: either the flow is short-circuited with a
fixed response, or the request context is recorded for the response hook. -/
inductive RequestOutcome where
  | blockedResponse (statusCode : ℕ) (body : String)
  | forwarded (info : RequestInfo)
deriving DecidableEq

/-- `ProxyAddon.request` (`traffic_monitor.py` 350–379): if
`urlparse(url).netloc` is in `blocked_domains`, set a fixed 200 response and
return (no `request_info` is stored); otherwise store the request context. -/
def proxyRequest (st : MonitorState) (url : String) (method : String) :
    RequestOutcome :=
  if netloc url ∈ st.blockedDomains then
    .blockedResponse 200 blockedPageBody
  else
    .forwarded ⟨url, method⟩

/-- A row of `traffic_logs` as written by `log_traffic` (fields not relevant
to the claims are omitted). -/
structure TrafficRecord where
  url : String
  method : String
  statusCode : ℕ
  responseSize : ℕ
deriving DecidableEq

/-- The observable outcome of one `ProxyAddon.response` call. -/
structure ProxyResponseResult where
  traffic : Option TrafficRecord
  detection : Option DetectionRecord
  state : MonitorState
deriving DecidableEq

/-- `ProxyAddon.response` (`traffic_monitor.py` 381–449): a no-op when the
flow carries no `request_info`; otherwise it logs a traffic row, and — when
`ml_predictor` is set and raises nothing — logs a detection row with
`blocked=False` and, when `is_gambling and confidence > 0.8`, adds
`urlparse(url).netloc` to the shared in-memory `blocked_domains` set (it does
NOT call `block_domain`: the database and the hosts file are untouched). -/
def proxyResponse (st : MonitorState)
    (pred : Option (String → Except Unit (ℚ × Bool)))
    (requestInfo : Option RequestInfo) (statusCode responseSize : ℕ) :
    ProxyResponseResult :=
  match requestInfo with
  | none => ⟨none, none, st⟩
  | some info =>
    let traffic : TrafficRecord := ⟨info.url, info.method, statusCode, responseSize⟩
    match pred with
    | none => ⟨some traffic, none, st⟩
    | some p =>
      match p info.url with
      | .error _ => ⟨some traffic, none, st⟩
      | .ok r =>
        let confidence := r.1
        let is_gambling := r.2
        let det : DetectionRecord := ⟨info.url, confidence, is_gambling, false⟩
        if is_gambling && decide (confidence > mkRat 8 10) then
          ⟨some traffic, some det,
            { st with blockedDomains := setInsert st.blockedDomains (netloc info.url) }⟩
        else
          ⟨some traffic, some det, st⟩

/-! ### Bandwidth sampler throttle of `get_real_time_stats` -/

/-- The `_last_bandwidth_log` throttle of `get_real_time_stats`
(`traffic_monitor.py` 275–283), run over a sequence of invocation times
(epoch seconds, as integers):
log when no previous log exists (`not hasattr`) or
`current_time - _last_bandwidth_log > 300`, and record the log time then.
Returns the invocation times at which a bandwidth row is persisted. -/
def persistTimesAux (last : Option ℤ) : List ℤ → List ℤ
  | [] => []
  | now :: rest =>
    match last with
    | none => now :: persistTimesAux (some now) rest
    | some t =>
      if now - t > 300 then now :: persistTimesAux (some now) rest
      else persistTimesAux (some t) rest

/-- Persisted-sample times for a fresh monitor (`_last_bandwidth_log` unset)
across a list of `get_real_time_stats` invocation times. -/
def bandwidthPersistTimes (times : List ℤ) : List ℤ :=
  persistTimesAux none times

/-! ### Helper lemmas -/

theorem setInsert_mem_iff (s : List String) (d d' : String) :
    d' ∈ setInsert s d ↔ d' ∈ s ∨ d' = d := by
  unfold setInsert
  split
  · rename_i hmem
    constructor
    · exact fun h => Or.inl h
    · rintro (h | rfl) <;> assumption
  · simp

theorem setInsert_nodup (s : List String) (d : String) (h : s.Nodup) :
    (setInsert s d).Nodup := by
  unfold setInsert
  split
  · exact h
  · rename_i hmem
    simp [List.nodup_append, h, hmem]

theorem block_domain_blockedDomains (st : MonitorState) (d : String) :
    (block_domain st d).1.blockedDomains = setInsert st.blockedDomains d := by
  unfold block_domain
  split <;> rfl

theorem block_domain_persisted (st : MonitorState) (d : String) :
    (block_domain st d).1.persisted = dbAddBlockedSite st.persisted ("http://" ++ d) := by
  unfold block_domain
  split <;> rfl

theorem block_domain_returns_true (st : MonitorState) (d : String) :
    (block_domain st d).2.1 = true := by
  unfold block_domain
  split <;> rfl

theorem unblock_domain_blockedDomains (st : MonitorState) (d : String) :
    (unblock_domain st d).1.blockedDomains
      = st.blockedDomains.filter (fun x => x != d) := by
  unfold unblock_domain
  split <;> rfl

/-- Unfolding of `analyzeConnection` when the dedup cache does not suppress
and the predictor returns a value. -/
theorem analyzeConnection_eq (st : MonitorState) (cache : List (String × ℕ))
    (now : ℕ) (f : String → Except Unit (ℚ × Bool)) (hostname : String)
    (port : ℕ) (conf : ℚ) (isg : Bool)
    (hd : dedupSuppresses (cacheLookup cache (hostname ++ ":" ++ toString port)) now
            = false)
    (hf : f ("http://" ++ hostname) = Except.ok (conf, isg)) :
    analyzeConnection st cache now (some f) hostname port =
      if isg && decide (conf > mkRat 7 10)
          && !(decide (hostname ∈ st.blockedDomains)) then
        ⟨cacheUpdate cache (hostname ++ ":" ++ toString port) now,
         some ⟨"http://" ++ hostname, conf, isg, decide (hostname ∈ st.blockedDomains)⟩,
         true, (block_domain st hostname).1⟩
      else
        ⟨cacheUpdate cache (hostname ++ ":" ++ toString port) now,
         some ⟨"http://" ++ hostname, conf, isg, decide (hostname ∈ st.blockedDomains)⟩,
         false, st⟩ := by
  simp [analyzeConnection, hd, mlPredictOrFallback, hf]

/-- Unfolding of `proxyResponse` when request context is present and the
predictor returns a value. -/
theorem proxyResponse_eq (st : MonitorState)
    (f : String → Except Unit (ℚ × Bool)) (info : RequestInfo)
    (sc rs : ℕ) (conf : ℚ) (isg : Bool)
    (hf : f info.url = Except.ok (conf, isg)) :
    proxyResponse st (some f) (some info) sc rs =
      if isg && decide (conf > mkRat 8 10) then
        ⟨some ⟨info.url, info.method, sc, rs⟩,
         some ⟨info.url, conf, isg, false⟩,
         { st with blockedDomains := setInsert st.blockedDomains (netloc info.url) }⟩
      else
        ⟨some ⟨info.url, info.method, sc, rs⟩,
         some ⟨info.url, conf, isg, false⟩, st⟩ := by
  unfold proxyResponse
  simp [hf]

/-- The detection row of `proxyResponse` (when present) always has
`url = info.url` and `blocked = false`. -/
theorem proxyResponse_detection_cases (st : MonitorState)
    (pred : Option (String → Except Unit (ℚ × Bool))) (info : RequestInfo)
    (sc rs : ℕ) :
    (proxyResponse st pred (some info) sc rs).detection = none ∨
    ∃ c g, (proxyResponse st pred (some info) sc rs).detection
      = some ⟨info.url, c, g, false⟩ := by
  rcases pred with _ | p
  · left
    rfl
  · rcases hp : p info.url with e | r
    · left
      simp [proxyResponse, hp]
    · right
      refine ⟨r.1, r.2, ?_⟩
      simp only [proxyResponse, hp]
      split <;> rfl

/-- The detection row of `analyzeConnection` (when present) always has
`url = "http://" ++ hostname` and `blocked` equal to the membership of the
hostname in the blocked set of the pre-state. -/
theorem analyzeConnection_detection_cases (st : MonitorState)
    (cache : List (String × ℕ)) (now : ℕ)
    (pred : Option (String → Except Unit (ℚ × Bool)))
    (hostname : String) (port : ℕ) :
    (analyzeConnection st cache now pred hostname port).detection = none ∨
    ∃ c g, (analyzeConnection st cache now pred hostname port).detection
      = some ⟨"http://" ++ hostname, c, g, decide (hostname ∈ st.blockedDomains)⟩ := by
  unfold analyzeConnection
  dsimp only
  split
  · left
    rfl
  · right
    refine ⟨(mlPredictOrFallback pred ("http://" ++ hostname)).1,
      (mlPredictOrFallback pred ("http://" ++ hostname)).2, ?_⟩
    split <;> rfl

/-! ### Claims -/

/-- Claim C1: `predict_gambling` flags exactly when the predicted probability
is strictly greater than the threshold `stored sensitivity / 100`
(defaulting to `0.5` when the setting is absent); probability equal to the
threshold is not flagged. -/
theorem C1_predict_gambling_threshold (score : String → Except Unit ℚ)
    (setting : Option ℤ) (url : String) (p : ℚ)
    (h : score url = Except.ok p) :
    sensitivityThreshold none = 1 / 2 ∧
    (∀ s : ℤ, sensitivityThreshold (some s) = (s : ℚ) / 100) ∧
    ((predict_gambling (some score) setting url).2 = true ↔
      p > sensitivityThreshold setting) ∧
    (p = sensitivityThreshold setting →
      (predict_gambling (some score) setting url).2 = false) := by
  have hpg : predict_gambling (some score) setting url =
      (p, decide (p > sensitivityThreshold setting)) := by
    simp [predict_gambling, h]
  refine ⟨?_, ?_, ?_, ?_⟩
  · show mkRat 1 2 = 1 / 2
    rw [Rat.mkRat_eq_divInt, Rat.divInt_eq_div]
    norm_num
  · intro s
    show mkRat s 100 = (s : ℚ) / 100
    rw [Rat.mkRat_eq_divInt, Rat.divInt_eq_div]
    norm_num
  · rw [hpg]
    simp
  · intro he
    rw [hpg, he]
    simp

/-- Witness for C1 at probability 3/4 against stored sensitivity 60
(threshold 0.6): flagged. -/
theorem C1_predict_gambling_threshold_witness :
    (predict_gambling (some (fun _ => Except.ok (mkRat 3 4))) (some 60) "http://x").2
      = true :=
  ((C1_predict_gambling_threshold (fun _ => Except.ok (mkRat 3 4)) (some 60)
      "http://x" (mkRat 3 4) rfl).2.2.1).mpr (by decide)

/-- Claim C2: when the model is not loaded or the prediction raises, the
evaluation returns probability 0.5 with a non-flagged verdict, totally (no
exception escapes); likewise `_analyze_connection` keeps its `(0.5, False)`
defaults and never auto-blocks in that case. -/
theorem C2_classifier_failure_fallback
    (model : Option (String → Except Unit ℚ)) (setting : Option ℤ) (url : String)
    (h : model = none ∨ ∃ score e, model = some score ∧ score url = Except.error e) :
    predict_gambling model setting url = (mkRat 1 2, false) ∧
    ∀ (st : MonitorState) (cache : List (String × ℕ)) (now : ℕ)
      (pred : Option (String → Except Unit (ℚ × Bool)))
      (hostname : String) (port : ℕ),
      (pred = none ∨ ∃ f e, pred = some f ∧ f ("http://" ++ hostname) = Except.error e) →
      dedupSuppresses (cacheLookup cache (hostname ++ ":" ++ toString port)) now
          = false →
      (analyzeConnection st cache now pred hostname port).detection =
          some ⟨"http://" ++ hostname, mkRat 1 2, false,
                decide (hostname ∈ st.blockedDomains)⟩ ∧
        (analyzeConnection st cache now pred hostname port).blockInvoked = false := by
  constructor
  · rcases h with rfl | ⟨score, e, rfl, he⟩
    · rfl
    · simp [predict_gambling, he]
  · intro st cache now pred hostname port hp hd
    rcases hp with rfl | ⟨f, e, rfl, he⟩
    · simp [analyzeConnection, hd, mlPredictOrFallback]
    · simp [analyzeConnection, hd, mlPredictOrFallback, he]

/-- Witness for C2: model absent, and a predictor that raises, both fall back
to probability 0.5 and no flag; the connection path logs the fallback verdict
and does not block. -/
theorem C2_classifier_failure_fallback_witness :
    predict_gambling none none "http://x" = (mkRat 1 2, false) ∧
    (analyzeConnection ⟨[], [], [], true⟩ [] 0
        (some (fun _ => Except.error ())) "h.example" 80).detection =
      some ⟨"http://h.example", mkRat 1 2, false, false⟩ ∧
    (analyzeConnection ⟨[], [], [], true⟩ [] 0
        (some (fun _ => Except.error ())) "h.example" 80).blockInvoked = false := by
  refine ⟨(C2_classifier_failure_fallback none none "http://x" (Or.inl rfl)).1, ?_, ?_⟩
  · exact ((C2_classifier_failure_fallback none none "http://x" (Or.inl rfl)).2
      ⟨[], [], [], true⟩ [] 0 (some (fun _ => Except.error ())) "h.example" 80
      (Or.inr ⟨_, (), rfl, rfl⟩) (by decide)).1
  · exact ((C2_classifier_failure_fallback none none "http://x" (Or.inl rfl)).2
      ⟨[], [], [], true⟩ [] 0 (some (fun _ => Except.error ())) "h.example" 80
      (Or.inr ⟨_, (), rfl, rfl⟩) (by decide)).2

/-- Claim C5: `block_domain D` makes the in-memory membership of `D` true and
a subsequent `unblock_domain D` makes it false again. -/
theorem C5_block_unblock_round_trip (st : MonitorState) (domain : String) :
    domain ∈ (block_domain st domain).1.blockedDomains ∧
    domain ∉ (unblock_domain (block_domain st domain).1 domain).1.blockedDomains := by
  constructor
  · rw [block_domain_blockedDomains]
    exact (setInsert_mem_iff _ _ _).mpr (Or.inr rfl)
  · rw [unblock_domain_blockedDomains]
    intro hmem
    have := List.of_mem_filter hmem
    simp at this

/-- Claim C3 as stated is false on the proxy path: a proxy-origin candidate
flagged with probability 0.9 (strictly above 0.8) on a domain that is not
already blocked gets only an in-memory insert — the Blocklist Store `block`
operation is not invoked: no persisted entry and no resolution override
line is created. -/
theorem C3_counterexample :
    let r := proxyResponse ⟨[], [], [], true⟩
      (some (fun _ => Except.ok (mkRat 9 10, true)))
      (some ⟨"http://bet.example", "GET"⟩) 200 100
    r.detection = some ⟨"http://bet.example", mkRat 9 10, true, false⟩ ∧
    "bet.example" ∈ r.state.blockedDomains ∧
    r.state.persisted = [] ∧
    r.state.hostsLines = [] := by
  decide

/-- Claim C3 (amended): a connection-origin candidate invokes the full
Blocklist Store `block` operation exactly when it is flagged with probability
strictly above 0.7 and its hostname is not already blocked; a proxy-origin
candidate flagged with probability strictly above 0.8 only inserts the domain
into the shared in-memory blocked set (no persisted entry, no resolution
override, no already-blocked precondition); at or below the thresholds
nothing is blocked. -/
theorem C3_amended_auto_block_policy :
    (∀ (st : MonitorState) (cache : List (String × ℕ)) (now : ℕ)
       (f : String → Except Unit (ℚ × Bool)) (hostname : String) (port : ℕ)
       (conf : ℚ) (isg : Bool),
       dedupSuppresses (cacheLookup cache (hostname ++ ":" ++ toString port)) now
           = false →
       f ("http://" ++ hostname) = Except.ok (conf, isg) →
       ((analyzeConnection st cache now (some f) hostname port).blockInvoked = true ↔
           isg = true ∧ conf > mkRat 7 10 ∧ hostname ∉ st.blockedDomains) ∧
         ((analyzeConnection st cache now (some f) hostname port).blockInvoked = true →
           (analyzeConnection st cache now (some f) hostname port).state
             = (block_domain st hostname).1) ∧
         ((analyzeConnection st cache now (some f) hostname port).blockInvoked = false →
           (analyzeConnection st cache now (some f) hostname port).state = st)) ∧
    (∀ (st : MonitorState) (f : String → Except Unit (ℚ × Bool))
       (info : RequestInfo) (sc rs : ℕ) (conf : ℚ) (isg : Bool),
       f info.url = Except.ok (conf, isg) →
       (proxyResponse st (some f) (some info) sc rs).state.persisted = st.persisted ∧
         (proxyResponse st (some f) (some info) sc rs).state.hostsLines
           = st.hostsLines ∧
         (isg = true → conf > mkRat 8 10 →
           (proxyResponse st (some f) (some info) sc rs).state.blockedDomains
             = setInsert st.blockedDomains (netloc info.url)) ∧
         (¬(isg = true ∧ conf > mkRat 8 10) →
           (proxyResponse st (some f) (some info) sc rs).state = st)) := by
  constructor
  · intro st cache now f hostname port conf isg hd hf
    rw [analyzeConnection_eq st cache now f hostname port conf isg hd hf]
    by_cases hb : isg = true ∧ conf > mkRat 7 10 ∧ hostname ∉ st.blockedDomains
    · obtain ⟨h1, h2, h3⟩ := hb
      have hcond : (isg && decide (conf > mkRat 7 10)
          && !(decide (hostname ∈ st.blockedDomains))) = true := by
        simp [h1, h2, h3]
      rw [if_pos hcond]
      exact ⟨iff_of_true rfl ⟨h1, h2, h3⟩, fun _ => rfl,
        fun h => absurd h (by simp)⟩
    · have hcond : ¬((isg && decide (conf > mkRat 7 10)
          && !(decide (hostname ∈ st.blockedDomains))) = true) := by
        intro hc
        apply hb
        simp only [Bool.and_eq_true, Bool.not_eq_true', decide_eq_true_iff,
          decide_eq_false_iff_not] at hc
        exact ⟨hc.1.1, hc.1.2, hc.2⟩
      rw [if_neg hcond]
      exact ⟨iff_of_false (by simp) hb, fun h => absurd h (by simp),
        fun _ => rfl⟩
  · intro st f info sc rs conf isg hf
    rw [proxyResponse_eq st f info sc rs conf isg hf]
    by_cases hb : isg = true ∧ conf > mkRat 8 10
    · have hcond : (isg && decide (conf > mkRat 8 10)) = true := by
        simp [hb.1, hb.2]
      rw [if_pos hcond]
      exact ⟨rfl, rfl, fun _ _ => rfl, fun hn => absurd hb hn⟩
    · have hcond : ¬((isg && decide (conf > mkRat 8 10)) = true) := by
        intro hc
        apply hb
        simpa only [Bool.and_eq_true, decide_eq_true_iff] using hc
      rw [if_neg hcond]
      exact ⟨rfl, rfl, fun h1 h2 => absurd ⟨h1, h2⟩ hb, fun _ => rfl⟩

/-- Witness for C3 (amended): a connection-origin candidate at probability
0.9 invokes `block_domain` (persisting the entry), while a proxy-origin
candidate at probability 0.9 leaves the persisted store empty. -/
theorem C3_amended_auto_block_policy_witness :
    (analyzeConnection ⟨[], [], [], true⟩ [] 0
        (some (fun _ => Except.ok (mkRat 9 10, true))) "bet.example" 443).blockInvoked
      = true ∧
    (proxyResponse ⟨[], [], [], true⟩
        (some (fun _ => Except.ok (mkRat 9 10, true)))
        (some ⟨"http://bet.example", "GET"⟩) 200 100).state.persisted = [] := by
  constructor
  · exact ((C3_amended_auto_block_policy.1 ⟨[], [], [], true⟩ [] 0
      (fun _ => Except.ok (mkRat 9 10, true)) "bet.example" 443 (mkRat 9 10) true
      (by decide) rfl).1).mpr ⟨rfl, by decide, by decide⟩
  · exact (C3_amended_auto_block_policy.2 ⟨[], [], [], true⟩
      (fun _ => Except.ok (mkRat 9 10, true)) ⟨"http://bet.example", "GET"⟩
      200 100 (mkRat 9 10) true rfl).1

/-- Claim C4: a request to a blocked domain is answered with the fixed
blocked-page body and short-circuits (no request context is recorded), and
the response hook is a no-op for a flow without request context: it logs no
traffic record, no detection, and changes nothing. -/
theorem C4_blocked_flow_short_circuit (st : MonitorState) (url method : String)
    (h : netloc url ∈ st.blockedDomains) :
    proxyRequest st url method = .blockedResponse 200 blockedPageBody ∧
    ∀ (pred : Option (String → Except Unit (ℚ × Bool))) (sc rs : ℕ),
      proxyResponse st pred none sc rs = ⟨none, none, st⟩ := by
  constructor
  · unfold proxyRequest
    rw [if_pos h]
  · intro pred sc rs
    rfl

/-- Witness for C4 with `bet.example` blocked. -/
theorem C4_blocked_flow_short_circuit_witness :
    proxyRequest ⟨["bet.example"], [], [], true⟩ "http://bet.example" "GET"
        = .blockedResponse 200 blockedPageBody ∧
    proxyResponse ⟨["bet.example"], [], [], true⟩ none none 200 0
        = ⟨none, none, ⟨["bet.example"], [], [], true⟩⟩ :=
  ⟨(C4_blocked_flow_short_circuit ⟨["bet.example"], [], [], true⟩
      "http://bet.example" "GET" (by decide)).1,
   (C4_blocked_flow_short_circuit ⟨["bet.example"], [], [], true⟩
      "http://bet.example" "GET" (by decide)).2 none 200 0⟩

/-- Claim C10: every detection record persisted by the proxy response hook
has `blocked = false`, even when the same evaluation auto-blocks; and the
connection-path detection record's `blocked` field reflects the blocked set
as it was before the auto-block decision of the same cycle. -/
theorem C10_detection_blocked_field (st : MonitorState)
    (pred : Option (String → Except Unit (ℚ × Bool)))
    (info : RequestInfo) (sc rs : ℕ) (cache : List (String × ℕ)) (now : ℕ)
    (hostname : String) (port : ℕ) :
    (∀ d, (proxyResponse st pred (some info) sc rs).detection = some d →
      d.blocked = false) ∧
    (∀ d, (analyzeConnection st cache now pred hostname port).detection = some d →
      d.blocked = decide (hostname ∈ st.blockedDomains)) := by
  constructor
  · intro d hd
    rcases proxyResponse_detection_cases st pred info sc rs with hnone | ⟨c, g, hsome⟩
    · rw [hnone] at hd
      cases hd
    · rw [hsome] at hd
      injection hd with h
      rw [← h]
  · intro d hd
    rcases analyzeConnection_detection_cases st cache now pred hostname port with
      hnone | ⟨c, g, hsome⟩
    · rw [hnone] at hd
      cases hd
    · rw [hsome] at hd
      injection hd with h
      rw [← h]

/-- Witness for C10 on an auto-blocking proxy evaluation (probability 0.9):
the logged record still carries `blocked = false`. -/
theorem C10_detection_blocked_field_witness :
    (⟨"http://bet.example", mkRat 9 10, true, false⟩ : DetectionRecord).blocked
      = false :=
  (C10_detection_blocked_field ⟨[], [], [], true⟩
      (some (fun _ => Except.ok (mkRat 9 10, true)))
      ⟨"http://bet.example", "GET"⟩ 200 100 [] 0 "bet.example" 443).1
    ⟨"http://bet.example", mkRat 9 10, true, false⟩ (by decide)

/-- Claim C6 as stated is false: when the hosts-file write fails with a
permission error, `block_domain` returns the bare `True` — exactly the same
caller-visible result as a fully successful block — so no distinct
"enforcement degraded" condition is surfaced to its caller (the failure is
only printed to the console). -/
theorem C6_counterexample :
    (block_domain ⟨[], [], [], false⟩ "bet.example").2.1 = true ∧
    (block_domain ⟨[], [], [], false⟩ "bet.example").2.1
      = (block_domain ⟨[], [], [], true⟩ "bet.example").2.1 := by
  decide

/-- Claim C6 (amended): when the hosts-file write fails with a permission
error, the in-memory insertion and the persisted entry still succeed and the
call still returns success, but the enforcement failure is only reported on
the console — the caller receives the same plain success value as for an
undegraded block. -/
theorem C6_amended_degraded_enforcement (st : MonitorState) (domain : String)
    (h : st.hostsWritable = false) :
    (block_domain st domain).2.1 = true ∧
    domain ∈ (block_domain st domain).1.blockedDomains ∧
    ("http://" ++ domain) ∈ (block_domain st domain).1.persisted ∧
    (block_domain st domain).1.hostsLines = st.hostsLines ∧
    (block_domain st domain).2.2 = true ∧
    (block_domain st domain).2.1
      = (block_domain { st with hostsWritable := true } domain).2.1 := by
  refine ⟨block_domain_returns_true st domain, ?_, ?_, ?_, ?_, ?_⟩
  · rw [block_domain_blockedDomains]
    exact (setInsert_mem_iff _ _ _).mpr (Or.inr rfl)
  · rw [block_domain_persisted]
    unfold dbAddBlockedSite
    split
    · assumption
    · simp
  · unfold block_domain
    rw [if_neg (by simp [h])]
  · unfold block_domain
    rw [if_neg (by simp [h])]
  · rw [block_domain_returns_true, block_domain_returns_true]

/-- Witness for C6 (amended) on an empty state with an unwritable hosts
file. -/
theorem C6_amended_degraded_enforcement_witness :
    (block_domain ⟨[], [], [], false⟩ "bet.example").2.1 = true ∧
    "bet.example" ∈ (block_domain ⟨[], [], [], false⟩ "bet.example").1.blockedDomains ∧
    ("http://" ++ "bet.example")
      ∈ (block_domain ⟨[], [], [], false⟩ "bet.example").1.persisted ∧
    (block_domain ⟨[], [], [], false⟩ "bet.example").1.hostsLines = [] ∧
    (block_domain ⟨[], [], [], false⟩ "bet.example").2.2 = true ∧
    (block_domain ⟨[], [], [], false⟩ "bet.example").2.1
      = (block_domain ⟨[], [], [], true⟩ "bet.example").2.1 :=
  C6_amended_degraded_enforcement ⟨[], [], [], false⟩ "bet.example" rfl

/-- Claim C7: the code violates the 5-minute dedup TTL it documents.  A
second observation of `(example.com, 443)` made 86460 seconds (1 day and 1
minute) after the first is suppressed — no detection is evaluated or logged
and the cache entry is not refreshed — because `timedelta.seconds` is the
day-modular seconds component (`86460 % 86400 = 60 < 300`), although far
more than 300 seconds have elapsed. -/
theorem C7_dedup_day_wraparound :
    timedeltaSeconds 86460 = 60 ∧
    (86460 : ℕ) > 300 ∧
    dedupSuppresses (some 0) 86460 = true ∧
    analyzeConnection ⟨[], [], [], true⟩ [("example.com:443", 0)] 86460
        (some (fun _ => Except.ok (mkRat 9 10, true))) "example.com" 443
      = ⟨[("example.com:443", 0)], none, false, ⟨[], [], [], true⟩⟩ := by
  decide

/-- Claim C9 as stated is false: the code performs no normalization at all.
Blocking `Example.com` stores it verbatim, so the membership test for
`example.com` fails (case sensitivity), and a request to
`http://www.bet.example` is forwarded, not short-circuited, even though
`bet.example` is in the blocked set (no `www.` stripping on matching). -/
theorem C9_counterexample :
    "example.com" ∉ (block_domain ⟨[], [], [], true⟩ "Example.com").1.blockedDomains ∧
    proxyRequest ⟨["bet.example"], [], [], true⟩ "http://www.bet.example" "GET"
      = .forwarded ⟨"http://www.bet.example", "GET"⟩ := by
  decide

/-- Claim C9 (amended): domains are stored verbatim and matched by exact,
case-sensitive string equality with no `www.` stripping; the in-memory set
stays duplicate-free under block (Python-set insert), unblock (discard) and
the startup load (set comprehension). -/
theorem C9_amended_exact_matching (st : MonitorState) (d : String)
    (h : st.blockedDomains.Nodup) :
    (∀ d', d' ∈ (block_domain st d).1.blockedDomains ↔
      d' ∈ st.blockedDomains ∨ d' = d) ∧
    (block_domain st d).1.blockedDomains.Nodup ∧
    (unblock_domain st d).1.blockedDomains.Nodup ∧
    ∀ p : List String, (load_blocked_sites p).Nodup := by
  refine ⟨?_, ?_, ?_, ?_⟩
  · intro d'
    rw [block_domain_blockedDomains]
    exact setInsert_mem_iff _ _ _
  · rw [block_domain_blockedDomains]
    exact setInsert_nodup _ _ h
  · rw [unblock_domain_blockedDomains]
    exact h.filter _
  · intro p
    exact List.nodup_dedup _

/-- Witness for C9 (amended): matching after blocking `B` over `\x7b"a"\x7d` is
exact-string. -/
theorem C9_amended_exact_matching_witness :
    ("b" ∈ (block_domain ⟨["a"], [], [], true⟩ "B").1.blockedDomains ↔
      "b" ∈ ["a"] ∨ "b" = "B") ∧
    (block_domain ⟨["a"], [], [], true⟩ "B").1.blockedDomains.Nodup :=
  ⟨(C9_amended_exact_matching ⟨["a"], [], [], true⟩ "B" (by simp)).1 "b",
   (C9_amended_exact_matching ⟨["a"], [], [], true⟩ "B" (by simp)).2.1⟩

/-- After a sample persisted at time `t`, every later persisted time is more
than 300 seconds after its predecessor, and the first later persisted time is
more than 300 seconds after `t`. -/
theorem persistTimesAux_chain (ts : List ℤ) : ∀ t : ℤ,
    (persistTimesAux (some t) ts).Chain' (fun a b => b - a > 300) ∧
    (∀ b, (persistTimesAux (some t) ts).head? = some b → b - t > 300) := by
  induction ts with
  | nil =>
    intro t
    exact ⟨List.chain'_nil, fun b hb => by cases hb⟩
  | cons now rest ih =>
    intro t
    unfold persistTimesAux
    dsimp only
    by_cases hc : now - t > 300
    · rw [if_pos hc]
      refine ⟨?_, ?_⟩
      · rw [List.chain'_cons']
        exact ⟨fun y hy => (ih now).2 y hy, (ih now).1⟩
      · intro b hb
        injection hb with hb
        rw [← hb]
        exact hc
    · rw [if_neg hc]
      exact ih t

set_option maxRecDepth 100000 in
/-- Claim C8: consecutive persisted bandwidth samples are always more than
300 seconds apart, the first invocation persists immediately, and invoking
`get_real_time_stats` once per second for 10 minutes (times 0..599) persists
exactly the two samples at times 0 and 301. -/
theorem C8_bandwidth_throttle :
    (∀ times : List ℤ,
      (bandwidthPersistTimes times).Chain' (fun a b => b - a > 300)) ∧
    (∀ (t : ℤ) (ts : List ℤ), (bandwidthPersistTimes (t :: ts)).head? = some t) ∧
    bandwidthPersistTimes ((List.range 600).map (fun n => (n : ℤ))) = [0, 301] := by
  refine ⟨?_, ?_, ?_⟩
  · intro times
    cases times with
    | nil => exact List.chain'_nil
    | cons t ts =>
      show List.Chain' _ (persistTimesAux none (t :: ts))
      unfold persistTimesAux
      dsimp only
      rw [List.chain'_cons']
      exact ⟨fun y hy => (persistTimesAux_chain ts t).2 y hy,
        (persistTimesAux_chain ts t).1⟩
  · intro t ts
    rfl
  · decide

end Jblocker
